import Mathlib

/-!
Verification of the BeagleBone Black stopwatch driver (`src/src/stopwatch.c`,
with the GPIO port in `src/bbbio.c`).  The repository's near-duplicate legacy
driver `src/stopwatch.c` is superseded by the refined driver, which is the one
the design documentation describes (it alone reads pin identifiers from
standard input, configures the mutex protocol, and checks lock results);
the embedding below follows the refined driver line by line.

Shallow-embedding conventions:
* `float32_t` values are modelled exactly as rationals; `FLT_MAX` is the
  exact value of the C constant.  The claims under study concern branch
  structure around `FLT_MAX`, not rounding.
* The `int32_t` booleans `stopwatch_running` / `reset_requested` only ever
  hold 0 or 1 in the program, so they are modelled as `Bool`.
* GPIO reads (`read_gpio_value` in `src/bbbio.c`) return `1`, `0`, or `-1`
  on failure; a tick of a thread takes the read results as parameters.
* Straight-line effectful code (`main`, the button tick's critical section)
  is modelled as an explicit, ordered trace of events.
-/

namespace Stopwatch

/-- GPIO pins used by the stopwatch; the concrete pin numbers are supplied
at run time on standard input (`get_input_and_initialize_gpio`). -/
inductive Pin
  | startStopButton
  | resetButton
  | redLed
  | greenLed
deriving DecidableEq, Repr, BEq

/-- Exact value of the C constant `FLT_MAX` (`(2 - 2^-23) * 2^127`). -/
def FLT_MAX : ℚ := (2 ^ 24 - 1) * 2 ^ 104

/-- The three shared fields of `src/src/stopwatch.c` lines 12-14:
`current_time`, `stopwatch_running`, `reset_requested` (the int32 flags are
only ever 0 or 1, modelled as `Bool`). -/
structure SharedState where
  current_time : ℚ
  stopwatch_running : Bool
  reset_requested : Bool
deriving DecidableEq, Repr

/-- The button thread's private previous-sample registers
(`start_stop_prev`, `reset_prev`, lines 46 and 48); they store the raw
`read_gpio_value` result, which is `-1` on a failed read. -/
structure ButtonPrev where
  start_stop_prev : Int
  reset_prev : Int
deriving DecidableEq, Repr

/-- Ordered events emitted by one button-thread loop iteration. -/
inductive Event
  | lock
  | toggleRunning (newVal : Bool)
  | setResetRequested
  | unlock
  | gpioOn (p : Pin)
  | gpioOff (p : Pin)
deriving DecidableEq, Repr, BEq

/-- One iteration of the button thread loop (`button_thread_func`,
`src/src/stopwatch.c` lines 52-88), as a function of the two
`read_gpio_value` results of this tick.  Returns the new shared state, the
new previous-sample registers (updated unconditionally, lines 83-84), and
the ordered trace of the iteration's locking, state and LED events.  Note
the source's `else if` at line 74: the reset edge is only examined when no
start/stop edge fired. -/
def button_tick (prev : ButtonPrev) (start_stop_current reset_current : Int)
    (s : SharedState) : SharedState × ButtonPrev × List Event :=
  if start_stop_current = 1 ∧ prev.start_stop_prev = 0 then
    -- lines 57-70: lock, toggle, capture `state`, unlock, then LED writes
    let running' := !s.stopwatch_running
    let leds : List Event :=
      if running' then [.gpioOff .redLed, .gpioOn .greenLed]
      else [.gpioOn .redLed, .gpioOff .greenLed]
    ({ s with stopwatch_running := running' },
     ⟨start_stop_current, reset_current⟩,
     [.lock, .toggleRunning running', .unlock] ++ leds)
  else if reset_current = 1 ∧ prev.reset_prev = 0 then
    -- lines 74-78: lock, set reset_requested, unlock
    ({ s with reset_requested := true },
     ⟨start_stop_current, reset_current⟩,
     [.lock, .setResetRequested, .unlock])
  else
    (s, ⟨start_stop_current, reset_current⟩, [])

/-- One iteration of the timer thread loop (`timer_thread_func`,
`src/src/stopwatch.c` lines 134-168), as a function of the tick's measured
monotonic-clock delta `d` (seconds).  Reset takes the first branch (lines
148-151); accumulation with the `FLT_MAX` guard is lines 152-158; when the
stopwatch is stopped the loop continues without mutating state
(lines 160-164). -/
def timer_tick (d : ℚ) (s : SharedState) : SharedState :=
  if s.reset_requested then
    { s with current_time := 0, reset_requested := false }
  else if s.stopwatch_running then
    if s.current_time + d ≤ FLT_MAX then
      { s with current_time := s.current_time + d }
    else
      { s with current_time := 0 }
  else
    s

/-- Worker thread identifiers. -/
inductive ThreadId
  | button
  | display
  | timer
deriving DecidableEq, Repr, BEq

/-- Mutex protocol attribute: `PTHREAD_PRIO_INHERIT` versus the default
protocol of a `NULL` attribute. -/
inductive MutexProtocol
  | defaultProtocol
  | prioInherit
deriving DecidableEq, Repr, BEq

/-- Signals the supervisor installs the `cleanup` handler for
(`src/src/stopwatch.c` lines 245-248). -/
inductive Signal
  | sigint
  | sigtstp
  | sigterm
  | sigquit
deriving DecidableEq, Repr, BEq

/-- Diagnostics printed by the driver (modelled as an enumeration instead of
the literal strings). -/
inductive Diagnostic
  | mutexLockFailed
  | mutexUnlockFailed
  | invalidInputFormat
  | checkFailed
deriving DecidableEq, Repr, BEq

/-- Steps of `main` (`src/src/stopwatch.c` lines 243-325), in source order. -/
inductive MainStep
  | installSignalHandler (sig : Signal)
  | attrInit (t : ThreadId)
  | setSchedPolicyFifo (t : ThreadId)
  | readPriorityRange
  | assignPriorities
  | setSchedParam (t : ThreadId)
  | setInheritSched (t : ThreadId)
  | mutexAttrInit
  | mutexAttrSetProtocol (p : MutexProtocol)
  | mutexInit (p : MutexProtocol)
  | gpioSetupCheck
  | createThread (t : ThreadId)
  | joinThread (t : ThreadId)
deriving DecidableEq, Repr, BEq

/-- The straight-line statement order of `main` (`src/src/stopwatch.c` lines
245-322): signal handlers, attribute setup, priority assignment, the
priority-inheritance mutex initialisation (lines 307-310), the guarded GPIO
setup (line 312), and only then the three `pthread_create` calls
(lines 315-317). -/
def main_trace : List MainStep :=
  [.installSignalHandler .sigint, .installSignalHandler .sigtstp,
   .installSignalHandler .sigterm, .installSignalHandler .sigquit,
   .attrInit .button, .attrInit .display, .attrInit .timer,
   .setSchedPolicyFifo .button, .setSchedPolicyFifo .display,
   .setSchedPolicyFifo .timer,
   .readPriorityRange, .assignPriorities,
   .setSchedParam .button, .setSchedParam .display, .setSchedParam .timer,
   .setInheritSched .button, .setInheritSched .display,
   .setInheritSched .timer,
   .mutexAttrInit, .mutexAttrSetProtocol .prioInherit,
   .mutexInit .prioInherit,
   .gpioSetupCheck,
   .createThread .button, .createThread .display, .createThread .timer,
   .joinThread .button, .joinThread .display, .joinThread .timer]

/-- Priority assigned to the button thread (`src/src/stopwatch.c` line 276):
the `SCHED_FIFO` maximum. -/
def button_priority (min_priority max_priority : Int) : Int :=
  max_priority

/-- Priority assigned to the timer thread (line 277): maximum minus 10. -/
def timer_priority (min_priority max_priority : Int) : Int :=
  max_priority - 10

/-- Priority assigned to the display thread (line 278): minimum plus 50. -/
def display_priority (min_priority max_priority : Int) : Int :=
  min_priority + 50

/-- Diagnostics printed and signals raised by a failure-checking wrapper. -/
structure FailureResponse where
  diagnostics : List Diagnostic
  raised : List Signal
deriving DecidableEq, Repr

/-- `lockMutex` (`src/src/stopwatch.c` lines 25-32): on a nonzero
`pthread_mutex_lock` result it prints an error and raises `SIGINT`;
otherwise it does nothing beyond the lock itself. -/
def lockMutex (ret : Int) : FailureResponse :=
  if ret ≠ 0 then ⟨[.mutexLockFailed], [.sigint]⟩ else ⟨[], []⟩

/-- `unlockMutex` (lines 35-42): same shape as `lockMutex` for
`pthread_mutex_unlock`. -/
def unlockMutex (ret : Int) : FailureResponse :=
  if ret ≠ 0 then ⟨[.mutexUnlockFailed], [.sigint]⟩ else ⟨[], []⟩

/-- Exit status used by the `cleanup` signal handler (line 239:
`exit(0)`). -/
def cleanup_exit_code : Nat := 0

/-- Signals for which `main` installs the `cleanup` handler
(lines 245-248). -/
def handled_signals : List Signal :=
  [.sigint, .sigtstp, .sigterm, .sigquit]

/-- Exit status of the process when a signal is raised: a handled signal
runs `cleanup`, which terminates with `exit(0)` (line 239). -/
def signal_exit_code (sig : Signal) : Option Nat :=
  if handled_signals.contains sig then some cleanup_exit_code else none

/-- Outcome of the platform calls made during
`get_input_and_initialize_gpio`: whether `fgets` returned a line, whether
`sscanf` parsed exactly four integers, and the results of the four
`setup_gpio_pin` calls (nonzero means success, `src/bbbio.c`
lines 94-122). -/
structure SetupInputs where
  fgets_ok : Bool
  sscanf_four : Bool
  setup_start_stop : Bool
  setup_reset : Bool
  setup_red : Bool
  setup_green : Bool
deriving DecidableEq, Repr

/-- Return value of `get_input_and_initialize_gpio`
(`src/src/stopwatch.c` lines 174-219): `-1` when `fgets` fails or `sscanf`
does not parse four integers, and otherwise `0` only when all four
`setup_gpio_pin` calls succeed (`&&`-chain, lines 200-216; on a failed
earlier conjunct the later calls are skipped, which does not change the
value). -/
def get_input_and_initialize_gpio (i : SetupInputs) : Int :=
  let ret : Int := if i.fgets_ok then (if i.sscanf_four then 0 else -1) else -1
  if ret = 0 ∧ i.setup_start_stop ∧ i.setup_reset ∧ i.setup_red ∧
      i.setup_green then 0
  else -1

/-- Diagnostics printed inside `get_input_and_initialize_gpio`: line 187
reports a malformed quadruple. -/
def setup_diagnostics (i : SetupInputs) : List Diagnostic :=
  if i.fgets_ok ∧ ¬i.sscanf_four then [.invalidInputFormat] else []

/-- The `check` helper (`src/src/stopwatch.c` lines 222-227): on a nonzero
result it prints an `[ERROR]` diagnostic and calls `exit(1)`; the returned
value is `some (diagnostics, exit code)` when the process terminates. -/
def check (result : Int) : Option (List Diagnostic × Nat) :=
  if result ≠ 0 then some ([.checkFailed], 1) else none

/-! ## Theorems about the claims -/

/-- C1: the priorities assigned in `main` (button = max, timer = max - 10,
display = min + 50) satisfy button ≥ timer > display whenever the
`SCHED_FIFO` priority range spans more than 60, as it does on the target
Linux platform where `sched_get_priority_min/max(SCHED_FIFO)` return 1
and 99. -/
theorem priorities_rate_monotonic_order (min_priority max_priority : Int)
    (h : min_priority + 60 < max_priority) :
    timer_priority min_priority max_priority ≤
      button_priority min_priority max_priority ∧
    display_priority min_priority max_priority <
      timer_priority min_priority max_priority := by
  unfold button_priority timer_priority display_priority
  omega

/-- Witness for C1 at the Linux `SCHED_FIFO` range 1..99, where the
assigned priorities are 99, 89 and 51. -/
theorem priorities_rate_monotonic_order_witness :
    timer_priority 1 99 ≤ button_priority 1 99 ∧
    display_priority 1 99 < timer_priority 1 99 :=
  priorities_rate_monotonic_order 1 99 (by norm_num)

/-- C2: in `main`'s statement order, the mutex attribute is set to the
priority-inheritance protocol and the mutex is initialised with it strictly
before each of the three `pthread_create` calls. -/
theorem mutex_prio_inherit_before_thread_creation :
    main_trace.contains (MainStep.mutexAttrSetProtocol .prioInherit) = true ∧
    main_trace.contains (MainStep.mutexInit .prioInherit) = true ∧
    main_trace.indexOf (MainStep.mutexInit .prioInherit) <
      main_trace.indexOf (MainStep.createThread .button) ∧
    main_trace.indexOf (MainStep.mutexInit .prioInherit) <
      main_trace.indexOf (MainStep.createThread .display) ∧
    main_trace.indexOf (MainStep.mutexInit .prioInherit) <
      main_trace.indexOf (MainStep.createThread .timer) := by
  decide

/-- C3 counterexample: a failed lock (nonzero return, here 1) prints a
diagnostic and raises `SIGINT`, whose installed handler `cleanup`
terminates the process — but with exit status 0, not the non-zero status
the claim requires. -/
theorem lock_failure_exits_zero :
    lockMutex 1 = ⟨[Diagnostic.mutexLockFailed], [Signal.sigint]⟩ ∧
    signal_exit_code Signal.sigint = some cleanup_exit_code ∧
    cleanup_exit_code = 0 := by
  decide

/-- C3 amended: any failing lock or unlock prints a diagnostic and raises
`SIGINT`; the handled signal runs `cleanup`, which terminates the process
with exit status 0. -/
theorem lock_failure_diagnostic_sigint_exit (ret : Int) (h : ret ≠ 0) :
    (lockMutex ret).diagnostics = [Diagnostic.mutexLockFailed] ∧
    (lockMutex ret).raised = [Signal.sigint] ∧
    (unlockMutex ret).diagnostics = [Diagnostic.mutexUnlockFailed] ∧
    (unlockMutex ret).raised = [Signal.sigint] ∧
    signal_exit_code Signal.sigint = some 0 := by
  refine ⟨?_, ?_, ?_, ?_, ?_⟩
  · simp [lockMutex, h]
  · simp [lockMutex, h]
  · simp [unlockMutex, h]
  · simp [unlockMutex, h]
  · decide

/-- Witness for the amended C3 at the concrete failure code 11. -/
theorem lock_failure_diagnostic_sigint_exit_witness :
    (lockMutex 11).diagnostics = [Diagnostic.mutexLockFailed] ∧
    (lockMutex 11).raised = [Signal.sigint] ∧
    (unlockMutex 11).diagnostics = [Diagnostic.mutexUnlockFailed] ∧
    (unlockMutex 11).raised = [Signal.sigint] ∧
    signal_exit_code Signal.sigint = some 0 :=
  lock_failure_diagnostic_sigint_exit 11 (by norm_num)

/-- C4 counterexample: a failed start/stop read (result `-1`) is stored as
the previous sample, so the rising edge on the very next tick (read 1) is
missed; a true level-0 sample on the first tick would have made that edge
toggle `stopwatch_running` to `true`. -/
theorem failed_read_not_level_zero :
    (button_tick
      (button_tick ⟨0, 0⟩ (-1) 0 ⟨0, false, false⟩).2.1
      1 0 ⟨0, false, false⟩).1.stopwatch_running = false ∧
    (button_tick ⟨0, 0⟩ 1 0 ⟨0, false, false⟩).1.stopwatch_running = true := by
  decide

/-- C4 amended: a tick whose start/stop read fails (`-1`) never toggles
`stopwatch_running`; if the reset read also fails, `reset_requested` is not
set; the error value `-1` itself is stored as the previous sample, and any
tick whose stored previous start/stop sample is `-1` does not toggle even
when the current read is 1 (rising edge suppressed, unlike a level-0
sample). -/
theorem failed_read_absorbed_no_toggle (prev : ButtonPrev) (r : Int)
    (s : SharedState) :
    (button_tick prev (-1) r s).1.stopwatch_running = s.stopwatch_running ∧
    (button_tick prev (-1) (-1) s).1.reset_requested = s.reset_requested ∧
    (button_tick prev (-1) r s).2.1.start_stop_prev = -1 ∧
    ∀ (p : ButtonPrev), p.start_stop_prev = -1 →
      ∀ (b : Int) (s' : SharedState),
        (button_tick p 1 b s').1.stopwatch_running =
          s'.stopwatch_running := by
  refine ⟨?_, ?_, ?_, ?_⟩
  · unfold button_tick
    split_ifs with h1 h2 <;> simp_all
  · unfold button_tick
    split_ifs with h1 h2 <;> simp_all
  · unfold button_tick
    split_ifs with h1 h2 <;> simp_all
  · intro p hp b s'
    unfold button_tick
    split_ifs with h1 h2 <;> simp_all

/-- Witness for the amended C4 at concrete inputs. -/
theorem failed_read_absorbed_no_toggle_witness :
    (button_tick ⟨0, 0⟩ (-1) 7 ⟨2, true, false⟩).1.stopwatch_running =
      (⟨(2 : ℚ), true, false⟩ : SharedState).stopwatch_running ∧
    (button_tick ⟨0, 0⟩ (-1) (-1) ⟨2, true, false⟩).1.reset_requested =
      (⟨(2 : ℚ), true, false⟩ : SharedState).reset_requested ∧
    (button_tick ⟨0, 0⟩ (-1) 7 ⟨2, true, false⟩).2.1.start_stop_prev = -1 ∧
    ∀ (p : ButtonPrev), p.start_stop_prev = -1 →
      ∀ (b : Int) (s' : SharedState),
        (button_tick p 1 b s').1.stopwatch_running =
          s'.stopwatch_running :=
  failed_read_absorbed_no_toggle ⟨0, 0⟩ 7 ⟨2, true, false⟩

/-- C5: a timer tick that starts with `reset_requested` true zeroes
`current_time` (for every delta, so no delta is accumulated), clears
`reset_requested`, and leaves `stopwatch_running` unchanged. -/
theorem reset_consumed_in_one_tick (d : ℚ) (s : SharedState)
    (h : s.reset_requested = true) :
    (timer_tick d s).current_time = 0 ∧
    (timer_tick d s).reset_requested = false ∧
    (timer_tick d s).stopwatch_running = s.stopwatch_running := by
  simp [timer_tick, h]

/-- Witness for C5: a pending reset at elapsed 5 with delta 7 yields
elapsed 0, no pending reset, running still true. -/
theorem reset_consumed_in_one_tick_witness :
    (timer_tick 7 ⟨5, true, true⟩).current_time = 0 ∧
    (timer_tick 7 ⟨5, true, true⟩).reset_requested = false ∧
    (timer_tick 7 ⟨5, true, true⟩).stopwatch_running =
      (⟨(5 : ℚ), true, true⟩ : SharedState).stopwatch_running :=
  reset_consumed_in_one_tick 7 ⟨5, true, true⟩ rfl

/-- C6: on a start/stop rising edge (current read 1, previous sample 0) the
button tick flips `stopwatch_running`, and its event trace is exactly lock,
toggle, unlock, then the two LED writes — green on / red off when the new
value is true, red on / green off otherwise — so the LED writes happen
after the lock is released, in the same tick. -/
theorem start_stop_edge_toggles_and_leds (prev : ButtonPrev)
    (ss r : Int) (s : SharedState)
    (h1 : ss = 1) (h2 : prev.start_stop_prev = 0) :
    (button_tick prev ss r s).1.stopwatch_running = !s.stopwatch_running ∧
    (button_tick prev ss r s).2.2 =
      [Event.lock, Event.toggleRunning (!s.stopwatch_running),
        Event.unlock] ++
      (if !s.stopwatch_running then
        [Event.gpioOff .redLed, Event.gpioOn .greenLed]
      else
        [Event.gpioOn .redLed, Event.gpioOff .greenLed]) := by
  simp [button_tick, h1, h2]

/-- Witness for C6: starting stopped, an edge turns the stopwatch on and
the trace is lock, toggle true, unlock, red off, green on. -/
theorem start_stop_edge_toggles_and_leds_witness :
    (button_tick ⟨0, 0⟩ 1 0 ⟨0, false, false⟩).1.stopwatch_running =
      !(⟨(0 : ℚ), false, false⟩ : SharedState).stopwatch_running ∧
    (button_tick ⟨0, 0⟩ 1 0 ⟨0, false, false⟩).2.2 =
      [Event.lock,
        Event.toggleRunning
          (!(⟨(0 : ℚ), false, false⟩ : SharedState).stopwatch_running),
        Event.unlock] ++
      (if !(⟨(0 : ℚ), false, false⟩ : SharedState).stopwatch_running then
        [Event.gpioOff .redLed, Event.gpioOn .greenLed]
      else
        [Event.gpioOn .redLed, Event.gpioOff .greenLed]) :=
  start_stop_edge_toggles_and_leds ⟨0, 0⟩ 1 0 ⟨0, false, false⟩ rfl rfl

/-- C7 counterexample: when both buttons show a rising edge in the same
tick (both reads 1, both previous samples 0), the `else if` at line 74
skips the reset branch, so `reset_requested` stays false even though the
reset input had a rising edge. -/
theorem coincident_edges_drop_reset :
    (button_tick ⟨0, 0⟩ 1 1 ⟨0, false, false⟩).1.reset_requested = false ∧
    (⟨(0 : Int), 0⟩ : ButtonPrev).reset_prev = 0 := by
  decide

/-- C7 amended: a reset rising edge sets `reset_requested` under the lock
in that tick, except when a start/stop rising edge fires in the same tick
(the reset check is in an `else if`); and the button tick never writes
`current_time` at all. -/
theorem reset_edge_sets_flag_unless_toggle_edge (prev : ButtonPrev)
    (ss r : Int) (s : SharedState)
    (h1 : r = 1) (h2 : prev.reset_prev = 0)
    (h3 : ¬(ss = 1 ∧ prev.start_stop_prev = 0)) :
    (button_tick prev ss r s).1.reset_requested = true ∧
    ∀ (p : ButtonPrev) (a b : Int) (s' : SharedState),
      (button_tick p a b s').1.current_time = s'.current_time := by
  constructor
  · simp [button_tick, h1, h2, h3]
  · intro p a b s'
    unfold button_tick
    split_ifs <;> rfl

/-- Witness for the amended C7: reset edge with no start/stop edge sets the
flag, and elapsed time is untouched. -/
theorem reset_edge_sets_flag_unless_toggle_edge_witness :
    (button_tick ⟨1, 0⟩ 1 1 ⟨2, true, false⟩).1.reset_requested = true ∧
    ∀ (p : ButtonPrev) (a b : Int) (s' : SharedState),
      (button_tick p a b s').1.current_time = s'.current_time :=
  reset_edge_sets_flag_unless_toggle_edge ⟨1, 0⟩ 1 1 ⟨2, true, false⟩
    rfl rfl (by norm_num)

/-- C8 counterexample: with the stopwatch running, no pending reset,
elapsed time at `FLT_MAX` and a delta of `FLT_MAX`, the tick wraps the
elapsed time to 0, which is strictly smaller — so elapsed time is not
non-decreasing while running without a reset.  The branch taken here is
the same in the program's single-precision arithmetic as in this exact
model: the float sum `FLT_MAX + FLT_MAX` rounds to `+inf` (and even an
exact evaluation, `2 * FLT_MAX`, exceeds `FLT_MAX`), so the guard
`current_time + elapsed_time <= FLT_MAX` at line 153 is false under any
evaluation method and the code takes the wrap-to-zero branch at
line 157. -/
theorem overflow_wrap_breaks_monotonicity :
    (timer_tick FLT_MAX ⟨FLT_MAX, true, false⟩).current_time = 0 ∧
    ¬((⟨FLT_MAX, true, false⟩ : SharedState).current_time ≤
        (timer_tick FLT_MAX ⟨FLT_MAX, true, false⟩).current_time) := by
  constructor
  · norm_num [timer_tick, FLT_MAX]
  · norm_num [timer_tick, FLT_MAX]

/-- C8 amended: across timer ticks with no pending reset, elapsed time is
non-decreasing while running provided the tick's sum does not exceed
`FLT_MAX` (when it would exceed, the elapsed time wraps to 0, a strict
decrease), and is exactly unchanged while stopped.  The hypothesis
`0 ≤ d` is not part of the amendment: it formalises that a tick's delta
is a difference of consecutive `CLOCK_MONOTONIC` timestamps
(`src/src/stopwatch.c` lines 132-140), which cannot be negative. -/
theorem elapsed_monotone_no_overflow (d : ℚ) (s : SharedState)
    (h0 : 0 ≤ d) (h1 : s.reset_requested = false) :
    (s.stopwatch_running = true → s.current_time + d ≤ FLT_MAX →
      s.current_time ≤ (timer_tick d s).current_time) ∧
    (s.stopwatch_running = false →
      (timer_tick d s).current_time = s.current_time) := by
  constructor
  · intro hr hov
    simp [timer_tick, h1, hr, hov]
    linarith
  · intro hr
    simp [timer_tick, h1, hr]

/-- Witness for the amended C8: running at 3 with delta 2 does not
decrease, stopped at 4 stays 4. -/
theorem elapsed_monotone_no_overflow_witness :
    ((3 : ℚ) ≤ (timer_tick 2 ⟨3, true, false⟩).current_time) ∧
    ((timer_tick 2 ⟨4, false, false⟩).current_time = 4) :=
  ⟨(elapsed_monotone_no_overflow 2 ⟨3, true, false⟩ (by norm_num) rfl).1
      rfl (by norm_num [FLT_MAX]),
   (elapsed_monotone_no_overflow 2 ⟨4, false, false⟩ (by norm_num) rfl).2
      rfl⟩

/-- C9: in a running tick with no pending reset, the elapsed time becomes 0
when adding the delta would exceed `FLT_MAX`, and becomes the exact sum
otherwise. -/
theorem overflow_wraps_to_zero_else_add (d : ℚ) (s : SharedState)
    (h1 : s.stopwatch_running = true) (h2 : s.reset_requested = false) :
    (FLT_MAX < s.current_time + d → (timer_tick d s).current_time = 0) ∧
    (s.current_time + d ≤ FLT_MAX →
      (timer_tick d s).current_time = s.current_time + d) := by
  constructor
  · intro hov
    have hle : ¬(s.current_time + d ≤ FLT_MAX) := not_le.mpr hov
    simp [timer_tick, h1, h2, hle]
  · intro hle
    simp [timer_tick, h1, h2, hle]

/-- Witness for C9: at `FLT_MAX` a delta of 5 wraps to 0; at 7 a delta of
2 adds to 9. -/
theorem overflow_wraps_to_zero_else_add_witness :
    ((timer_tick 5 ⟨FLT_MAX, true, false⟩).current_time = 0) ∧
    ((timer_tick 2 ⟨7, true, false⟩).current_time = 7 + 2) :=
  ⟨(overflow_wraps_to_zero_else_add 5 ⟨FLT_MAX, true, false⟩ rfl rfl).1
      (by norm_num [FLT_MAX]),
   (overflow_wraps_to_zero_else_add 2 ⟨7, true, false⟩ rfl rfl).2
      (by norm_num [FLT_MAX])⟩

/-- C10: every setup failure (no input line, malformed quadruple, or any
of the four `setup_gpio_pin` calls failing) makes
`get_input_and_initialize_gpio` return -1, so the guarding `check` in
`main` prints a diagnostic and exits with status 1 (non-zero); a malformed
quadruple additionally prints its own diagnostic; and in `main`'s statement
order the guarded setup happens strictly before each `pthread_create`. -/
theorem setup_error_fatal_before_threads (i : SetupInputs)
    (h : i.fgets_ok = false ∨ i.sscanf_four = false ∨
         i.setup_start_stop = false ∨ i.setup_reset = false ∨
         i.setup_red = false ∨ i.setup_green = false) :
    get_input_and_initialize_gpio i = -1 ∧
    check (get_input_and_initialize_gpio i) =
      some ([Diagnostic.checkFailed], 1) ∧
    (1 : Nat) ≠ 0 ∧
    (i.fgets_ok = true ∧ i.sscanf_four = false →
      setup_diagnostics i = [Diagnostic.invalidInputFormat]) ∧
    main_trace.indexOf MainStep.gpioSetupCheck <
      main_trace.indexOf (MainStep.createThread .button) ∧
    main_trace.indexOf MainStep.gpioSetupCheck <
      main_trace.indexOf (MainStep.createThread .display) ∧
    main_trace.indexOf MainStep.gpioSetupCheck <
      main_trace.indexOf (MainStep.createThread .timer) := by
  obtain ⟨a, b, c, d, e, f⟩ := i
  revert h
  revert a b c d e f
  decide

/-- Witness for C10: a line that parses to fewer than four integers. -/
theorem setup_error_fatal_before_threads_witness :
    get_input_and_initialize_gpio ⟨true, false, true, true, true, true⟩ =
      -1 ∧
    check (get_input_and_initialize_gpio
      ⟨true, false, true, true, true, true⟩) =
      some ([Diagnostic.checkFailed], 1) ∧
    (1 : Nat) ≠ 0 ∧
    ((⟨true, false, true, true, true, true⟩ : SetupInputs).fgets_ok = true ∧
      (⟨true, false, true, true, true, true⟩ : SetupInputs).sscanf_four =
        false →
      setup_diagnostics ⟨true, false, true, true, true, true⟩ =
        [Diagnostic.invalidInputFormat]) ∧
    main_trace.indexOf MainStep.gpioSetupCheck <
      main_trace.indexOf (MainStep.createThread .button) ∧
    main_trace.indexOf MainStep.gpioSetupCheck <
      main_trace.indexOf (MainStep.createThread .display) ∧
    main_trace.indexOf MainStep.gpioSetupCheck <
      main_trace.indexOf (MainStep.createThread .timer) :=
  setup_error_fatal_before_threads ⟨true, false, true, true, true, true⟩
    (Or.inr (Or.inl rfl))

end Stopwatch
